import Mathlib

/-!
Verification of the `ogo` static file server: a shallow embedding of the
middleware package (request logging, response-status capture, correlation
identifiers), the sandbox negotiation sequence, and the process lifecycle of
the `main` package (the variant defining the distinct fatal exit codes
`fatalDirCode`, `fatalSandboxCode`, `fatalServerCode`).

Conventions of the embedding:
- Bytes are `Nat` values below 256; byte slices are `List Nat`.
- Go strings are Lean `String`s.
- The underlying `http.ResponseWriter` sink is modelled as a record of its
  optional capabilities (`Flusher` / `Hijacker`) plus the ordered list of
  calls forwarded to it; `nil` values of Go interface/pointer results are
  `Option.none`.
- `crypto/rand.Read` is modelled by an explicit outcome (`RandResult`):
  either an error, or the list of bytes it filled the buffer with.
- `time.Now().Nanosecond()` is an explicit `Nat` input, and elapsed
  durations are opaque `Nat` inputs: the embedding does not model real time.
-/

/-! ## Hex encoding (`encoding/hex.EncodeToString`) -/

/-- The lowercase hex digit for a value below 16, as written by
`encoding/hex`: digits `0`-`9` are code points 48-57, digits `a`-`f` are
code points 97-102. -/
def hexDigitChar (n : Nat) : Char :=
  Char.ofNat (if n < 10 then 48 + n else 87 + n)

/-- Hex encoding of one byte: high nibble then low nibble. -/
def hexEncodeByte (b : Nat) : List Char :=
  [hexDigitChar (b / 16), hexDigitChar (b % 16)]

/-- `hex.EncodeToString` on a byte slice, as a character list. -/
def hexEncode (bs : List Nat) : List Char :=
  bs.flatMap hexEncodeByte

/-- A character is a lowercase hexadecimal digit. -/
def isLowerHexChar (c : Char) : Bool :=
  (48 ≤ c.toNat && c.toNat ≤ 57) || (97 ≤ c.toNat && c.toNat ≤ 102)

/-- Numeric value of a hex digit character (the inverse of `hexDigitChar`
on digits). -/
def hexDigitVal (c : Char) : Nat :=
  if c.toNat ≤ 57 then c.toNat - 48 else c.toNat - 87

/-- Hex decoding: consumes characters two at a time. -/
def hexDecode : List Char → List Nat
  | c1 :: c2 :: rest => (hexDigitVal c1 * 16 + hexDigitVal c2) :: hexDecode rest
  | _ => []

theorem hexDigitChar_lower : ∀ n < 16, isLowerHexChar (hexDigitChar n) = true := by
  decide

theorem hexDigitVal_hexDigitChar : ∀ n < 16, hexDigitVal (hexDigitChar n) = n := by
  decide

theorem hexEncodeByte_decodes {b : Nat} (hb : b < 256) :
    hexDigitVal (hexDigitChar (b / 16)) * 16 + hexDigitVal (hexDigitChar (b % 16)) = b := by
  have hdiv : b / 16 < 16 := Nat.div_lt_of_lt_mul (by omega)
  have hmod : b % 16 < 16 := Nat.mod_lt _ (by omega)
  rw [hexDigitVal_hexDigitChar _ hdiv, hexDigitVal_hexDigitChar _ hmod]
  omega

theorem hexDecode_hexEncode {bs : List Nat} (h : ∀ b ∈ bs, b < 256) :
    hexDecode (hexEncode bs) = bs := by
  induction bs with
  | nil => rfl
  | cons b t ih =>
    have hb : b < 256 := h b (List.mem_cons_self b t)
    have ht : ∀ x ∈ t, x < 256 := fun x hx => h x (List.mem_cons_of_mem b hx)
    simp only [hexEncode, List.flatMap_cons, hexEncodeByte, List.cons_append,
      List.nil_append, hexDecode]
    rw [hexEncodeByte_decodes hb]
    exact congrArg (b :: ·) (ih ht)

theorem hexEncode_length (bs : List Nat) : (hexEncode bs).length = 2 * bs.length := by
  induction bs with
  | nil => rfl
  | cons b t ih =>
    simp only [hexEncode, List.flatMap_cons, hexEncodeByte] at *
    simp [ih]
    omega

theorem hexEncode_all_lower {bs : List Nat} (h : ∀ b ∈ bs, b < 256) :
    ∀ c ∈ hexEncode bs, isLowerHexChar c = true := by
  induction bs with
  | nil => intro c hc; simp [hexEncode] at hc
  | cons b t ih =>
    intro c hc
    have hb : b < 256 := h b (List.mem_cons_self b t)
    have ht : ∀ x ∈ t, x < 256 := fun x hx => h x (List.mem_cons_of_mem b hx)
    simp only [hexEncode, List.flatMap_cons, hexEncodeByte, List.cons_append,
      List.nil_append, List.mem_cons] at hc
    rcases hc with rfl | rfl | hc
    · exact hexDigitChar_lower _ (Nat.div_lt_of_lt_mul (by omega))
    · exact hexDigitChar_lower _ (Nat.mod_lt _ (by omega))
    · exact ih ht c hc

/-! ## The middleware package: response capture adapter

`responseWriter` wraps the underlying `http.ResponseWriter` and captures the
status code.  The underlying sink is modelled by `UnderlyingWriter`: its
optional capabilities and the ordered list of calls forwarded to it. -/

/-- One call forwarded to the underlying `http.ResponseWriter`. -/
inductive SinkEvent where
  | writeHeader (code : Int)
  | write (body : List Nat)
  | flush
  | hijack
  deriving DecidableEq, Repr

/-- The underlying `http.ResponseWriter` sink: whether it implements the
optional `http.Flusher` / `http.Hijacker` interfaces, what its own `Hijack`
returns when it has one (connection, buffered read-writer, error; `none`
models Go `nil`), and the calls forwarded to it so far, in order. -/
structure UnderlyingWriter where
  hasFlusher : Bool
  hasHijacker : Bool
  hijackConn : Option Unit
  hijackBuf : Option Unit
  hijackErr : Option String
  events : List SinkEvent
  deriving DecidableEq, Repr

/-- `responseWriter` from the middleware package: embeds the underlying
writer and captures the status code (Go zero value 0 at creation). -/
structure responseWriter where
  ResponseWriter : UnderlyingWriter
  statusCode : Int
  deriving DecidableEq, Repr

/-- `WriteHeader` captures the status code and calls the underlying
`WriteHeader` method. -/
def responseWriter.WriteHeader (rw : responseWriter) (code : Int) : responseWriter :=
  { rw with
    statusCode := code
    ResponseWriter := { rw.ResponseWriter with
      events := rw.ResponseWriter.events ++ [SinkEvent.writeHeader code] } }

/-- `Write` defaults the captured status code to `http.StatusOK` (200) when
it is still 0, then calls the underlying `Write` method.  (The underlying
call's `(int, error)` return value is passed through unchanged and plays no
role in the captured state.) -/
def responseWriter.Write (rw : responseWriter) (b : List Nat) : responseWriter :=
  let rw := if rw.statusCode = 0 then { rw with statusCode := 200 } else rw
  { rw with
    ResponseWriter := { rw.ResponseWriter with
      events := rw.ResponseWriter.events ++ [SinkEvent.write b] } }

/-- `Flush` forwards to the underlying writer when it implements
`http.Flusher`, and otherwise does nothing. -/
def responseWriter.Flush (rw : responseWriter) : responseWriter :=
  if rw.ResponseWriter.hasFlusher then
    { rw with
      ResponseWriter := { rw.ResponseWriter with
        events := rw.ResponseWriter.events ++ [SinkEvent.flush] } }
  else rw

/-- `Hijack` forwards to the underlying writer when it implements
`http.Hijacker`, and otherwise returns `(nil, nil, error)` with the
"not implemented" error, without panicking (the Go code uses a comma-ok
type assertion). -/
def responseWriter.Hijack (rw : responseWriter) :
    (Option Unit × Option Unit × Option String) × responseWriter :=
  if rw.ResponseWriter.hasHijacker then
    ((rw.ResponseWriter.hijackConn, rw.ResponseWriter.hijackBuf, rw.ResponseWriter.hijackErr),
     { rw with
       ResponseWriter := { rw.ResponseWriter with
         events := rw.ResponseWriter.events ++ [SinkEvent.hijack] } })
  else
    ((none, none, some "http.Hijacker not implemented by underlying ResponseWriter"), rw)

/-! ## The middleware package: request identifiers and logging -/

/-- Outcome of `crypto/rand.Read` on the pooled 8-byte buffer: either an
error, or the bytes it filled the buffer with (`n` is their count). -/
inductive RandResult where
  | err (msg : String)
  | ok (bytes : List Nat)
  deriving DecidableEq, Repr

/-- `requestIDSize` is the size of the request ID in bytes. -/
def requestIDSize : Nat := 8

/-- `getRequestID` generates a random request ID: it reads 8 random bytes
(from the pooled buffer), fails on a read error or a short read, and
otherwise hex-encodes the bytes. -/
def getRequestID (r : RandResult) : Except String String :=
  match r with
  | RandResult.err m => Except.error m
  | RandResult.ok bs =>
    if bs.length ≠ requestIDSize then Except.error "unexpected number of bytes read"
    else Except.ok (String.mk (hexEncode bs))

/-- An incoming request, with the fields the middleware reads. -/
structure Request where
  method : String
  urlPath : String
  remoteAddr : String
  deriving DecidableEq, Repr

/-- One action the inner handler performs on the response writer it is
given, in program order. -/
inductive HAction where
  | writeHeader (code : Int)
  | write (body : List Nat)
  | flush
  | hijack
  deriving DecidableEq, Repr

/-- Effect of one handler action on the wrapped response writer. -/
def handlerStep (rw : responseWriter) : HAction → responseWriter
  | HAction.writeHeader c => rw.WriteHeader c
  | HAction.write b => rw.Write b
  | HAction.flush => rw.Flush
  | HAction.hijack => rw.Hijack.2

/-- `h.ServeHTTP(wrapped, r)`: the inner handler runs its actions on the
wrapped writer in order. -/
def serveHTTP (rw : responseWriter) (handler : List HAction) : responseWriter :=
  handler.foldl handlerStep rw

/-- A structured log entry emitted by the middleware:
`errorEntry` for `slog.Error("requestID", "error", err)`,
`requestEntry` for `logger.Info("request", ...)` on the logger carrying the
`id`, `method` and `path` attributes, and `responseEntry` for
`logger.Info("response", ...)` on the same logger. -/
inductive LogEntry where
  | errorEntry (msg : String) (errText : String)
  | requestEntry (id method path remote : String)
  | responseEntry (id : String) (duration : Nat) (status : Int)
  deriving DecidableEq, Repr

/-- `Logging` wraps the handler: it generates a correlation identifier
(falling back to `strconv.Itoa(time.Now().Nanosecond())` and logging the
error when generation fails), logs the request, serves it through a fresh
`responseWriter` wrapping `w`, and logs the response with the elapsed
duration and the captured status code.  Returns the emitted log entries in
order together with the final wrapped writer. -/
def Logging (randRead : RandResult) (nanos : Nat) (w : UnderlyingWriter)
    (r : Request) (handler : List HAction) (duration : Nat) :
    List LogEntry × responseWriter :=
  let idGen : List LogEntry × String :=
    match getRequestID randRead with
    | Except.error e => ([LogEntry.errorEntry "requestID" e], Nat.repr nanos)
    | Except.ok s => ([], s)
  let wrapped : responseWriter := { ResponseWriter := w, statusCode := 0 }
  let final := serveHTTP wrapped handler
  (idGen.1 ++
    [LogEntry.requestEntry idGen.2 r.method r.urlPath r.remoteAddr,
     LogEntry.responseEntry idGen.2 duration final.statusCode],
   final)

/-- The status carried by the last `responseEntry` of a log, if any. -/
def loggedStatus (l : List LogEntry) : Option Int :=
  match l with
  | [] => none
  | e :: t =>
    match loggedStatus t with
    | some s => some s
    | none =>
      match e with
      | LogEntry.responseEntry _ _ st => some st
      | _ => none

/-! ## The sandbox package and `setupSecurity`

On OpenBSD the three sandbox functions call the corresponding kernel
facilities; on other platforms all three are no-ops returning `nil`.  The
platform outcome of each call is modelled by `SandboxEnv` (a `none` entry
means the call succeeds, as it always does on non-OpenBSD builds). -/

/-- One call into the sandbox package, in the order `setupSecurity` makes
them. -/
inductive SBCall where
  | unveil (path perms : String)
  | unveilBlock
  | pledge (promises : String)
  deriving DecidableEq, Repr

/-- Platform outcome of each sandbox call: `none` means success. -/
structure SandboxEnv where
  unveilErr : Option String
  unveilBlockErr : Option String
  pledgeErr : Option String
  deriving DecidableEq, Repr

/-- Whether some sandbox negotiation step fails in this environment. -/
def SandboxEnv.fails (env : SandboxEnv) : Bool :=
  env.unveilErr.isSome || env.unveilBlockErr.isSome || env.pledgeErr.isSome

/-- The full fixed call sequence `setupSecurity` attempts for a directory:
`Unveil(absDir, "r")`, then `UnveilBlock()`, then
`Pledge("stdio rpath inet")`. -/
def sbFixedOrder (absDir : String) : List SBCall :=
  [SBCall.unveil absDir "r", SBCall.unveilBlock, SBCall.pledge "stdio rpath inet"]

/-- `setupSecurity` applies the OpenBSD restrictions in sequence, stopping
and returning a wrapped error at the first failing step.  Returns the calls
actually made, in order, and the error (`none` on success). -/
def setupSecurity (env : SandboxEnv) (absDir : String) : List SBCall × Option String :=
  match env.unveilErr with
  | some e => ([SBCall.unveil absDir "r"], some ("failed to unveil directory: " ++ e))
  | none =>
    match env.unveilBlockErr with
    | some e =>
      ([SBCall.unveil absDir "r", SBCall.unveilBlock],
       some ("failed to block unveil: " ++ e))
    | none =>
      match env.pledgeErr with
      | some e =>
        (sbFixedOrder absDir, some ("failed to pledge: " ++ e))
      | none => (sbFixedOrder absDir, none)

/-! ## The `main` package lifecycle

`main` validates the directory, runs `setupSecurity`, starts the listener in
a goroutine, and then waits on a `select` between the server-error channel
and the termination signal; the first arrival wins (`RunTrigger`).  `fatal`
logs and calls `os.Exit(code)`; a normal return from `main` terminates the
process with exit status 0. -/

/-- `fatalDirCode = iota + 1`, then `fatalSandboxCode`, `fatalServerCode`. -/
def fatalDirCode : Nat := 1

/-- Exit code for a sandbox negotiation failure. -/
def fatalSandboxCode : Nat := fatalDirCode + 1

/-- Exit code for a server startup/runtime failure. -/
def fatalServerCode : Nat := fatalSandboxCode + 1

/-- Which of the two `select` arms fires first: a non-`ErrServerClosed`
error from `ListenAndServe`, or a termination signal. -/
inductive RunTrigger where
  | serverError (msg : String)
  | signal
  deriving DecidableEq, Repr

/-- The inputs that determine one run of `main`: the outcome of
`checkDirectory`, the platform outcome of the sandbox calls, which `select`
arm fires first, and the error returned by `server.Shutdown` (`none` when
the graceful shutdown finishes in time). -/
structure MainInput where
  dirCheck : Except String String
  sandbox : SandboxEnv
  trigger : RunTrigger
  shutdownErr : Option String
  deriving Repr

/-- Externally observable events of one run of `main`, in order. -/
inductive MainEvent where
  | logError (msg : String)
  | logInfo (msg : String)
  | sandboxCall (c : SBCall)
  | listen
  | exitProcess (code : Nat)
  deriving DecidableEq, Repr

/-- The trace of one run of `main` (from the `main` package variant with
distinct fatal codes): directory check, `setupSecurity`, the goroutine
calling `ListenAndServe` (the `listen` event), the `select` on the error
channel versus the signal, and the bounded graceful shutdown.  A shutdown
error is logged but not fatal; the final `exitProcess 0` models the normal
return from `main`. -/
def mainRun (inp : MainInput) : List MainEvent :=
  match inp.dirCheck with
  | Except.error _ =>
    [MainEvent.logError "invalid directory", MainEvent.exitProcess fatalDirCode]
  | Except.ok absDir =>
    let sec := setupSecurity inp.sandbox absDir
    let sbEvents := sec.1.map MainEvent.sandboxCall
    match sec.2 with
    | some _ =>
      sbEvents ++
        [MainEvent.logError "failed to setup security restrictions",
         MainEvent.exitProcess fatalSandboxCode]
    | none =>
      sbEvents ++
        [MainEvent.logInfo "starting file server", MainEvent.listen] ++
        match inp.trigger with
        | RunTrigger.serverError _ =>
          [MainEvent.logError "server failed", MainEvent.exitProcess fatalServerCode]
        | RunTrigger.signal =>
          [MainEvent.logInfo "shutting down server"] ++
            (match inp.shutdownErr with
             | some _ => [MainEvent.logError "failed to shutdown server gracefully"]
             | none => []) ++
            [MainEvent.logInfo "stopped", MainEvent.exitProcess 0]

/-- The exit status of a run: the code of the first `exitProcess` event
(`os.Exit` terminates the process immediately). -/
def exitCodeOf : List MainEvent → Option Nat
  | [] => none
  | MainEvent.exitProcess c :: _ => some c
  | _ :: t => exitCodeOf t

/-! ## Helper lemmas about the adapter and the middleware log -/

theorem Write_ResponseWriter (rw : responseWriter) (b : List Nat) :
    (rw.Write b).ResponseWriter =
      { rw.ResponseWriter with events := rw.ResponseWriter.events ++ [SinkEvent.write b] } := by
  by_cases h : rw.statusCode = 0 <;> simp [responseWriter.Write, h]

theorem Write_statusCode (rw : responseWriter) (b : List Nat) :
    (rw.Write b).statusCode = if rw.statusCode = 0 then 200 else rw.statusCode := by
  by_cases h : rw.statusCode = 0 <;> simp [responseWriter.Write, h]

theorem Flush_statusCode (rw : responseWriter) : rw.Flush.statusCode = rw.statusCode := by
  by_cases h : rw.ResponseWriter.hasFlusher <;> simp [responseWriter.Flush, h]

theorem Hijack_statusCode (rw : responseWriter) :
    rw.Hijack.2.statusCode = rw.statusCode := by
  by_cases h : rw.ResponseWriter.hasHijacker <;> simp [responseWriter.Hijack, h]

/-- Status-code effect of one handler action, decoupled from the event
bookkeeping. -/
def stepStatus (st : Int) : HAction → Int
  | HAction.writeHeader c => c
  | HAction.write _ => if st = 0 then 200 else st
  | HAction.flush => st
  | HAction.hijack => st

theorem handlerStep_statusCode (rw : responseWriter) (a : HAction) :
    (handlerStep rw a).statusCode = stepStatus rw.statusCode a := by
  cases a with
  | writeHeader c => rfl
  | write b => exact Write_statusCode rw b
  | flush => exact Flush_statusCode rw
  | hijack => exact Hijack_statusCode rw

theorem serveHTTP_statusCode (handler : List HAction) :
    ∀ rw : responseWriter,
      (serveHTTP rw handler).statusCode = handler.foldl stepStatus rw.statusCode := by
  induction handler with
  | nil => intro rw; rfl
  | cons a t ih =>
    intro rw
    show (serveHTTP (handlerStep rw a) t).statusCode = _
    rw [ih, handlerStep_statusCode]
    rfl

/-- Whether an action is an explicit `WriteHeader` call. -/
def isHeaderCall : HAction → Bool
  | HAction.writeHeader _ => true
  | _ => false

/-- Whether an action is a body `Write` call. -/
def isWriteCall : HAction → Bool
  | HAction.write _ => true
  | _ => false

theorem foldl_stepStatus_nonzero {handler : List HAction} {st : Int}
    (hnh : ∀ a ∈ handler, isHeaderCall a = false) (hst : st ≠ 0) :
    handler.foldl stepStatus st = st := by
  induction handler with
  | nil => rfl
  | cons a t ih =>
    have ha : isHeaderCall a = false := hnh a (List.mem_cons_self a t)
    have ht : ∀ x ∈ t, isHeaderCall x = false :=
      fun x hx => hnh x (List.mem_cons_of_mem a hx)
    cases a with
    | writeHeader c => simp [isHeaderCall] at ha
    | write b =>
      show List.foldl stepStatus (stepStatus st (HAction.write b)) t = st
      simp only [stepStatus, if_neg hst]
      exact ih ht
    | flush => exact ih ht
    | hijack => exact ih ht

theorem foldl_stepStatus_zero_write {handler : List HAction}
    (hnh : ∀ a ∈ handler, isHeaderCall a = false)
    (hw : ∃ a ∈ handler, isWriteCall a = true) :
    handler.foldl stepStatus 0 = 200 := by
  induction handler with
  | nil => simp at hw
  | cons a t ih =>
    have ha : isHeaderCall a = false := hnh a (List.mem_cons_self a t)
    have ht : ∀ x ∈ t, isHeaderCall x = false :=
      fun x hx => hnh x (List.mem_cons_of_mem a hx)
    cases a with
    | writeHeader c => simp [isHeaderCall] at ha
    | write b =>
      show List.foldl stepStatus (stepStatus 0 (HAction.write b)) t = 200
      simp only [stepStatus, if_pos rfl]
      exact foldl_stepStatus_nonzero ht (by decide)
    | flush =>
      rcases hw with ⟨x, hx, hxw⟩
      rcases List.mem_cons.mp hx with rfl | hx
      · simp [isWriteCall] at hxw
      · exact ih ht ⟨x, hx, hxw⟩
    | hijack =>
      rcases hw with ⟨x, hx, hxw⟩
      rcases List.mem_cons.mp hx with rfl | hx
      · simp [isWriteCall] at hxw
      · exact ih ht ⟨x, hx, hxw⟩

theorem foldl_stepStatus_no_calls {handler : List HAction} {st : Int}
    (hnh : ∀ a ∈ handler, isHeaderCall a = false)
    (hnw : ∀ a ∈ handler, isWriteCall a = false) :
    handler.foldl stepStatus st = st := by
  induction handler generalizing st with
  | nil => rfl
  | cons a t ih =>
    have ha : isHeaderCall a = false := hnh a (List.mem_cons_self a t)
    have haw : isWriteCall a = false := hnw a (List.mem_cons_self a t)
    have ht : ∀ x ∈ t, isHeaderCall x = false :=
      fun x hx => hnh x (List.mem_cons_of_mem a hx)
    have htw : ∀ x ∈ t, isWriteCall x = false :=
      fun x hx => hnw x (List.mem_cons_of_mem a hx)
    cases a with
    | writeHeader c => simp [isHeaderCall] at ha
    | write b => simp [isWriteCall] at haw
    | flush => exact ih ht htw
    | hijack => exact ih ht htw

theorem Logging_snd (randRead : RandResult) (nanos : Nat) (w : UnderlyingWriter)
    (r : Request) (handler : List HAction) (d : Nat) :
    (Logging randRead nanos w r handler d).2 =
      serveHTTP { ResponseWriter := w, statusCode := 0 } handler := rfl

theorem loggedStatus_Logging (randRead : RandResult) (nanos : Nat)
    (w : UnderlyingWriter) (r : Request) (handler : List HAction) (d : Nat) :
    loggedStatus (Logging randRead nanos w r handler d).1 =
      some (serveHTTP { ResponseWriter := w, statusCode := 0 } handler).statusCode := by
  rcases h : getRequestID randRead with e | s <;>
    simp [Logging, h, loggedStatus]

theorem setupSecurity_isSome_iff (env : SandboxEnv) (d : String) :
    (setupSecurity env d).2.isSome = env.fails := by
  rcases env with ⟨u, ub, p⟩
  cases u <;> cases ub <;> cases p <;> rfl

theorem exitCodeOf_append_sandboxCalls (l : List SBCall) (rest : List MainEvent) :
    exitCodeOf (l.map MainEvent.sandboxCall ++ rest) = exitCodeOf rest := by
  induction l with
  | nil => rfl
  | cons c t ih => simpa [exitCodeOf] using ih

theorem listen_not_mem_sandboxCalls (l : List SBCall) :
    MainEvent.listen ∉ l.map MainEvent.sandboxCall := by
  simp [List.mem_map]

/-! ## Concrete fixtures used by witnesses and counterexamples -/

/-- An underlying sink without the optional `Flusher`/`Hijacker`
capabilities, with an empty forwarded-call history. -/
def wMock : UnderlyingWriter :=
  { hasFlusher := false, hasHijacker := false, hijackConn := none,
    hijackBuf := none, hijackErr := none, events := [] }

/-- A concrete GET request. -/
def reqMock : Request :=
  { method := "GET", urlPath := "/test/path", remoteAddr := "127.0.0.1:12345" }

/-- A sandbox environment where every negotiation step succeeds (the
non-OpenBSD build). -/
def envOk : SandboxEnv := { unveilErr := none, unveilBlockErr := none, pledgeErr := none }

/-- A sandbox environment failing at the lock-visibility (`UnveilBlock`)
step. -/
def envLockFail : SandboxEnv :=
  { unveilErr := none, unveilBlockErr := some "unveil locked", pledgeErr := none }

/-- Run of `main` with an invalid directory. -/
def inpDirErr : MainInput :=
  { dirCheck := Except.error "failed to stat directory", sandbox := envOk,
    trigger := RunTrigger.signal, shutdownErr := none }

/-- Run of `main` where sandbox negotiation fails at the lock step. -/
def inpSbFail : MainInput :=
  { dirCheck := Except.ok "/tmp/x", sandbox := envLockFail,
    trigger := RunTrigger.signal, shutdownErr := none }

/-- Run of `main` where `ListenAndServe` reports a startup failure. -/
def inpSrvFail : MainInput :=
  { dirCheck := Except.ok "/tmp/x", sandbox := envOk,
    trigger := RunTrigger.serverError "address already in use", shutdownErr := none }

/-- Graceful run of `main`: signal received, shutdown finishes in time. -/
def inpOk : MainInput :=
  { dirCheck := Except.ok "/tmp/x", sandbox := envOk,
    trigger := RunTrigger.signal, shutdownErr := none }

/-- Run of `main` where the graceful shutdown exceeds its timeout. -/
def inpShutdownErr : MainInput :=
  { dirCheck := Except.ok "/tmp/x", sandbox := envOk,
    trigger := RunTrigger.signal, shutdownErr := some "context deadline exceeded" }

/-! ## Claims -/

/-- C1: for every request processed by the `Logging` middleware, the
"request" and "response" log entries carry an identical correlation
identifier, and the "request" entry is emitted at a strictly earlier
position of the log than the "response" entry. -/
theorem logging_entries_share_id_and_ordered (randRead : RandResult) (nanos : Nat)
    (w : UnderlyingWriter) (r : Request) (handler : List HAction) (d : Nat) :
    ∃ i j id dur st,
      i < j ∧
      ((Logging randRead nanos w r handler d).1).get? i =
        some (LogEntry.requestEntry id r.method r.urlPath r.remoteAddr) ∧
      ((Logging randRead nanos w r handler d).1).get? j =
        some (LogEntry.responseEntry id dur st) := by
  rcases h : getRequestID randRead with e | s
  · exact ⟨1, 2, Nat.repr nanos, d,
      (serveHTTP { ResponseWriter := w, statusCode := 0 } handler).statusCode,
      by omega, by simp [Logging, h], by simp [Logging, h]⟩
  · exact ⟨0, 1, s, d,
      (serveHTTP { ResponseWriter := w, statusCode := 0 } handler).statusCode,
      by omega, by simp [Logging, h], by simp [Logging, h]⟩

/-- C3: if the inner handler performs at least one body `Write` and never
calls `WriteHeader` explicitly, the captured status code is 200, and the
"response" log entry reports 200. -/
theorem write_without_header_captures_200 (randRead : RandResult) (nanos : Nat)
    (w : UnderlyingWriter) (r : Request) (handler : List HAction) (d : Nat)
    (hnh : ∀ a ∈ handler, isHeaderCall a = false)
    (hw : ∃ a ∈ handler, isWriteCall a = true) :
    (Logging randRead nanos w r handler d).2.statusCode = 200 ∧
    loggedStatus (Logging randRead nanos w r handler d).1 = some 200 := by
  have hs : (serveHTTP { ResponseWriter := w, statusCode := 0 } handler).statusCode = 200 := by
    rw [serveHTTP_statusCode]
    exact foldl_stepStatus_zero_write hnh hw
  refine ⟨?_, ?_⟩
  · rw [Logging_snd, hs]
  · rw [loggedStatus_Logging, hs]

/-- Witness for C3 at a concrete handler writing one body chunk. -/
theorem write_without_header_captures_200_witness :
    (Logging (RandResult.ok [1, 2, 3, 4, 5, 6, 7, 8]) 0 wMock reqMock
        [HAction.write [104, 105]] 0).2.statusCode = 200 ∧
    loggedStatus (Logging (RandResult.ok [1, 2, 3, 4, 5, 6, 7, 8]) 0 wMock reqMock
        [HAction.write [104, 105]] 0).1 = some 200 :=
  write_without_header_captures_200 (RandResult.ok [1, 2, 3, 4, 5, 6, 7, 8]) 0 wMock
    reqMock [HAction.write [104, 105]] 0 (by decide)
    ⟨HAction.write [104, 105], by decide, by decide⟩

/-- C5: if the underlying sink does not implement `http.Hijacker`, `Hijack`
returns a nil connection, a nil buffer and the explicit "not implemented"
error without changing the writer (the comma-ok type assertion cannot
panic, and the embedding is a total function); if the sink does not
implement `http.Flusher`, `Flush` is a no-op. -/
theorem hijack_unsupported_flush_noop (rw : responseWriter) :
    (rw.ResponseWriter.hasHijacker = false →
      rw.Hijack =
        ((none, none, some "http.Hijacker not implemented by underlying ResponseWriter"),
         rw)) ∧
    (rw.ResponseWriter.hasFlusher = false → rw.Flush = rw) := by
  constructor
  · intro h; simp [responseWriter.Hijack, h]
  · intro h; simp [responseWriter.Flush, h]

/-- Witness for C5 at a sink with neither capability. -/
theorem hijack_unsupported_flush_noop_witness :
    ({ ResponseWriter := wMock, statusCode := 0 } : responseWriter).Hijack =
      ((none, none, some "http.Hijacker not implemented by underlying ResponseWriter"),
       { ResponseWriter := wMock, statusCode := 0 }) ∧
    ({ ResponseWriter := wMock, statusCode := 0 } : responseWriter).Flush =
      { ResponseWriter := wMock, statusCode := 0 } :=
  ⟨(hijack_unsupported_flush_noop { ResponseWriter := wMock, statusCode := 0 }).1 rfl,
   (hijack_unsupported_flush_noop { ResponseWriter := wMock, statusCode := 0 }).2 rfl⟩

/-- C4, counterexample: the handler sets status 201, writes a body chunk,
then sets status 404.  The later `WriteHeader` is forwarded to the sink
unchanged, but contrary to the claim the adapter records and logs 404 (the
later value), not 201 (the first captured value). -/
theorem later_writeheader_overrides_counterexample :
    (Logging (RandResult.ok [1, 2, 3, 4, 5, 6, 7, 8]) 0 wMock reqMock
        [HAction.writeHeader 201, HAction.write [104], HAction.writeHeader 404]
        0).2.ResponseWriter.events =
      [SinkEvent.writeHeader 201, SinkEvent.write [104], SinkEvent.writeHeader 404] ∧
    loggedStatus (Logging (RandResult.ok [1, 2, 3, 4, 5, 6, 7, 8]) 0 wMock reqMock
        [HAction.writeHeader 201, HAction.write [104], HAction.writeHeader 404]
        0).1 = some 404 ∧
    (404 : Int) ≠ 201 := by
  refine ⟨by decide, by decide, by decide⟩

/-- C4, amended: when the handler sets a status, writes output, then sets a
different status again, the later status-setting call is still forwarded to
the underlying sink unchanged, but the adapter records the later value and
the "response" entry logs that later value (the last one set), not the
first captured one. -/
theorem later_writeheader_forwarded_and_logged (randRead : RandResult) (nanos : Nat)
    (w : UnderlyingWriter) (r : Request) (d : Nat) (c1 c2 : Int) (b : List Nat) :
    (Logging randRead nanos w r
        [HAction.writeHeader c1, HAction.write b, HAction.writeHeader c2]
        d).2.ResponseWriter.events =
      w.events ++ [SinkEvent.writeHeader c1, SinkEvent.write b, SinkEvent.writeHeader c2] ∧
    (Logging randRead nanos w r
        [HAction.writeHeader c1, HAction.write b, HAction.writeHeader c2]
        d).2.statusCode = c2 ∧
    loggedStatus (Logging randRead nanos w r
        [HAction.writeHeader c1, HAction.write b, HAction.writeHeader c2]
        d).1 = some c2 := by
  have hserve :
      serveHTTP { ResponseWriter := w, statusCode := 0 }
          [HAction.writeHeader c1, HAction.write b, HAction.writeHeader c2] =
        ((({ ResponseWriter := w, statusCode := 0 } : responseWriter).WriteHeader
            c1).Write b).WriteHeader c2 := rfl
  refine ⟨?_, ?_, ?_⟩
  · rw [Logging_snd, hserve]
    simp [responseWriter.WriteHeader, Write_ResponseWriter]
  · rw [Logging_snd, hserve]
    rfl
  · rw [loggedStatus_Logging, hserve]
    rfl

/-- C6, counterexample: when the randomness source fails, the middleware
still processes the request but attaches the clock-derived fallback
identifier (here nanosecond value 5, giving the string "5"), which is not a
16-character hexadecimal token, so the claim does not hold of every
request. -/
theorem fallback_id_not_hex_counterexample :
    ((Logging (RandResult.err "entropy source exhausted") 5 wMock reqMock [] 0).1).get? 1 =
      some (LogEntry.requestEntry "5" "GET" "/test/path" "127.0.0.1:12345") ∧
    ¬ ("5" : String).length = 16 := by
  refine ⟨by decide, by decide⟩

/-- C6, amended: for every request whose correlation-identifier generation
succeeds (the randomness source fills the whole 8-byte buffer without
error), the identifier attached to the log entries is a 16-character
lowercase hexadecimal string whose decoding yields exactly the 8 random
bytes. -/
theorem request_id_hex_of_gen_ok (bs : List Nat) (nanos : Nat) (w : UnderlyingWriter)
    (r : Request) (handler : List HAction) (d : Nat)
    (h8 : bs.length = 8) (hlt : ∀ b ∈ bs, b < 256) :
    ∃ id : String,
      getRequestID (RandResult.ok bs) = Except.ok id ∧
      id.length = 16 ∧
      (∀ c ∈ id.data, isLowerHexChar c = true) ∧
      hexDecode id.data = bs ∧
      (hexDecode id.data).length = 8 ∧
      ((Logging (RandResult.ok bs) nanos w r handler d).1).get? 0 =
        some (LogEntry.requestEntry id r.method r.urlPath r.remoteAddr) := by
  have hgen : getRequestID (RandResult.ok bs) = Except.ok (String.mk (hexEncode bs)) := by
    simp [getRequestID, requestIDSize, h8]
  refine ⟨String.mk (hexEncode bs), hgen, ?_, ?_, ?_, ?_, ?_⟩
  · show (hexEncode bs).length = 16
    rw [hexEncode_length, h8]
  · exact hexEncode_all_lower hlt
  · exact hexDecode_hexEncode hlt
  · rw [hexDecode_hexEncode hlt, h8]
  · simp [Logging, hgen]

/-- Witness for C6 (amended) at a concrete 8-byte read. -/
theorem request_id_hex_of_gen_ok_witness :
    ∃ id : String,
      getRequestID (RandResult.ok [222, 173, 190, 239, 0, 1, 2, 3]) = Except.ok id ∧
      id.length = 16 ∧
      (∀ c ∈ id.data, isLowerHexChar c = true) ∧
      hexDecode id.data = [222, 173, 190, 239, 0, 1, 2, 3] ∧
      (hexDecode id.data).length = 8 ∧
      ((Logging (RandResult.ok [222, 173, 190, 239, 0, 1, 2, 3]) 0 wMock reqMock
          [] 0).1).get? 0 =
        some (LogEntry.requestEntry id "GET" "/test/path" "127.0.0.1:12345") :=
  request_id_hex_of_gen_ok [222, 173, 190, 239, 0, 1, 2, 3] 0 wMock reqMock [] 0
    (by decide) (by decide)

/-- C7: when identifier generation fails (randomness error or short read),
the middleware logs the failure as a separate entry, substitutes the
clock-derived fallback identifier on both log entries, still invokes the
inner handler on the wrapped writer, and still emits the "request" and
"response" entries. -/
theorem genfail_fallback_still_serves (randRead : RandResult) (e : String)
    (nanos : Nat) (w : UnderlyingWriter) (r : Request) (handler : List HAction)
    (d : Nat) (hgen : getRequestID randRead = Except.error e) :
    Logging randRead nanos w r handler d =
      ([LogEntry.errorEntry "requestID" e,
        LogEntry.requestEntry (Nat.repr nanos) r.method r.urlPath r.remoteAddr,
        LogEntry.responseEntry (Nat.repr nanos) d
          (serveHTTP { ResponseWriter := w, statusCode := 0 } handler).statusCode],
       serveHTTP { ResponseWriter := w, statusCode := 0 } handler) := by
  simp [Logging, hgen]

/-- Witness for C7: a failing randomness source on a handler that writes a
body; the handler still runs (its write is forwarded to the sink) and both
entries appear with the fallback identifier. -/
theorem genfail_fallback_still_serves_witness :
    getRequestID (RandResult.err "entropy source exhausted") =
      Except.error "entropy source exhausted" ∧
    Logging (RandResult.err "entropy source exhausted") 7 wMock reqMock
        [HAction.write [104]] 3 =
      ([LogEntry.errorEntry "requestID" "entropy source exhausted",
        LogEntry.requestEntry (Nat.repr 7) "GET" "/test/path" "127.0.0.1:12345",
        LogEntry.responseEntry (Nat.repr 7) 3
          (serveHTTP { ResponseWriter := wMock, statusCode := 0 }
            [HAction.write [104]]).statusCode],
       serveHTTP { ResponseWriter := wMock, statusCode := 0 } [HAction.write [104]]) :=
  ⟨rfl, genfail_fallback_still_serves (RandResult.err "entropy source exhausted")
    "entropy source exhausted" 7 wMock reqMock [HAction.write [104]] 3 rfl⟩

/-- C10: if the inner handler performs no `Write` and no `WriteHeader`, the
captured status code stays at the adapter's initial value 0, and the
"response" entry logs 0, not 200. -/
theorem no_write_no_header_status_zero (randRead : RandResult) (nanos : Nat)
    (w : UnderlyingWriter) (r : Request) (handler : List HAction) (d : Nat)
    (hnh : ∀ a ∈ handler, isHeaderCall a = false)
    (hnw : ∀ a ∈ handler, isWriteCall a = false) :
    (Logging randRead nanos w r handler d).2.statusCode = 0 ∧
    loggedStatus (Logging randRead nanos w r handler d).1 = some 0 ∧
    loggedStatus (Logging randRead nanos w r handler d).1 ≠ some 200 := by
  have hs : (serveHTTP { ResponseWriter := w, statusCode := 0 } handler).statusCode = 0 := by
    rw [serveHTTP_statusCode]
    exact foldl_stepStatus_no_calls hnh hnw
  refine ⟨by rw [Logging_snd, hs], by rw [loggedStatus_Logging, hs], ?_⟩
  rw [loggedStatus_Logging, hs]
  decide

/-- Witness for C10 at an empty handler. -/
theorem no_write_no_header_status_zero_witness :
    (Logging (RandResult.ok [1, 2, 3, 4, 5, 6, 7, 8]) 0 wMock reqMock [] 0).2.statusCode
        = 0 ∧
    loggedStatus (Logging (RandResult.ok [1, 2, 3, 4, 5, 6, 7, 8]) 0 wMock reqMock
        [] 0).1 = some 0 ∧
    loggedStatus (Logging (RandResult.ok [1, 2, 3, 4, 5, 6, 7, 8]) 0 wMock reqMock
        [] 0).1 ≠ some 200 :=
  no_write_no_header_status_zero (RandResult.ok [1, 2, 3, 4, 5, 6, 7, 8]) 0 wMock
    reqMock [] 0 (by decide) (by decide)

/-- C2: the process exits 0 on a graceful stop, `fatalDirCode` = 1 on an
invalid directory, `fatalSandboxCode` = 2 on a sandbox negotiation failure,
`fatalServerCode` = 3 on a server startup failure, and the three fatal
codes are pairwise distinct. -/
theorem exit_codes (inp : MainInput) :
    (∀ e, inp.dirCheck = Except.error e →
      exitCodeOf (mainRun inp) = some fatalDirCode) ∧
    (∀ dirA, inp.dirCheck = Except.ok dirA → inp.sandbox.fails = true →
      exitCodeOf (mainRun inp) = some fatalSandboxCode) ∧
    (∀ dirA m, inp.dirCheck = Except.ok dirA → inp.sandbox.fails = false →
      inp.trigger = RunTrigger.serverError m →
      exitCodeOf (mainRun inp) = some fatalServerCode) ∧
    (∀ dirA, inp.dirCheck = Except.ok dirA → inp.sandbox.fails = false →
      inp.trigger = RunTrigger.signal → exitCodeOf (mainRun inp) = some 0) ∧
    (fatalDirCode = 1 ∧ fatalSandboxCode = 2 ∧ fatalServerCode = 3 ∧
      fatalDirCode ≠ fatalSandboxCode ∧ fatalDirCode ≠ fatalServerCode ∧
      fatalSandboxCode ≠ fatalServerCode) := by
  refine ⟨?_, ?_, ?_, ?_, by decide⟩
  · intro e hdir
    simp [mainRun, hdir, exitCodeOf]
  · intro dirA hdir hfail
    have hsome : (setupSecurity inp.sandbox dirA).2.isSome = true := by
      rw [setupSecurity_isSome_iff]; exact hfail
    obtain ⟨err, herr⟩ := Option.isSome_iff_exists.mp hsome
    simp [mainRun, hdir, herr, exitCodeOf_append_sandboxCalls, exitCodeOf]
  · intro dirA m hdir hok htr
    have hnone : (setupSecurity inp.sandbox dirA).2 = none := by
      rw [← Option.not_isSome_iff_eq_none, setupSecurity_isSome_iff, hok]
      simp
    simp [mainRun, hdir, hnone, htr, exitCodeOf_append_sandboxCalls, exitCodeOf]
  · intro dirA hdir hok htr
    have hnone : (setupSecurity inp.sandbox dirA).2 = none := by
      rw [← Option.not_isSome_iff_eq_none, setupSecurity_isSome_iff, hok]
      simp
    rcases hsd : inp.shutdownErr with _ | e <;>
      simp [mainRun, hdir, hnone, htr, hsd, exitCodeOf_append_sandboxCalls, exitCodeOf]

/-- Witness for C2: the four exit paths at concrete inputs. -/
theorem exit_codes_witness :
    exitCodeOf (mainRun inpDirErr) = some fatalDirCode ∧
    exitCodeOf (mainRun inpSbFail) = some fatalSandboxCode ∧
    exitCodeOf (mainRun inpSrvFail) = some fatalServerCode ∧
    exitCodeOf (mainRun inpOk) = some 0 :=
  ⟨(exit_codes inpDirErr).1 "failed to stat directory" rfl,
   (exit_codes inpSbFail).2.1 "/tmp/x" rfl rfl,
   (exit_codes inpSrvFail).2.2.1 "/tmp/x" "address already in use" rfl rfl rfl,
   (exit_codes inpOk).2.2.2.1 "/tmp/x" rfl rfl rfl⟩

/-- C8: `setupSecurity` makes its sandbox calls in the fixed order
`Unveil(dir, "r")`, `UnveilBlock()`, `Pledge("stdio rpath inet")` (every
call trace is an initial segment of that sequence, the full sequence on
success); any failing step makes `setupSecurity` return an error; and
whenever some step fails — in particular the lock-visibility
(`UnveilBlock`) step — the run of `main` aborts and never opens the
listener. -/
theorem sandbox_order_and_abort (env : SandboxEnv) (d : String) (inp : MainInput) :
    (∃ n, (setupSecurity env d).1 = (sbFixedOrder d).take n) ∧
    (env.fails = false →
      (setupSecurity env d).1 = sbFixedOrder d ∧ (setupSecurity env d).2 = none) ∧
    (env.fails = true → (setupSecurity env d).2.isSome = true) ∧
    (inp.sandbox.fails = true → MainEvent.listen ∉ mainRun inp) ∧
    (inp.sandbox.unveilBlockErr.isSome = true → MainEvent.listen ∉ mainRun inp) := by
  have hnotin : inp.sandbox.fails = true → MainEvent.listen ∉ mainRun inp := by
    intro hfail
    rcases hdir : inp.dirCheck with e | dirA
    · simp [mainRun, hdir]
    · have hsome : (setupSecurity inp.sandbox dirA).2.isSome = true := by
        rw [setupSecurity_isSome_iff]; exact hfail
      obtain ⟨err, herr⟩ := Option.isSome_iff_exists.mp hsome
      simp [mainRun, hdir, herr, listen_not_mem_sandboxCalls]
  refine ⟨?_, ?_, ?_, hnotin, ?_⟩
  · rcases env with ⟨u, ub, p⟩
    cases u <;> cases ub <;> cases p
    · exact ⟨3, rfl⟩
    · exact ⟨3, rfl⟩
    · exact ⟨2, rfl⟩
    · exact ⟨2, rfl⟩
    · exact ⟨1, rfl⟩
    · exact ⟨1, rfl⟩
    · exact ⟨1, rfl⟩
    · exact ⟨1, rfl⟩
  · intro hok
    rcases env with ⟨u, ub, p⟩
    cases u <;> cases ub <;> cases p <;>
      first
      | exact ⟨rfl, rfl⟩
      | simp [SandboxEnv.fails] at hok
  · intro hfail
    rw [setupSecurity_isSome_iff]
    exact hfail
  · intro hub
    apply hnotin
    simp [SandboxEnv.fails, hub]

/-- Witness for C8: a lock-visibility failure at concrete inputs, plus the
full fixed order on a succeeding environment. -/
theorem sandbox_order_and_abort_witness :
    (∃ n, (setupSecurity envLockFail "/tmp/x").1 = (sbFixedOrder "/tmp/x").take n) ∧
    (setupSecurity envLockFail "/tmp/x").2.isSome = true ∧
    MainEvent.listen ∉ mainRun inpSbFail ∧
    (setupSecurity envOk "/tmp/x").1 = sbFixedOrder "/tmp/x" ∧
    (setupSecurity envOk "/tmp/x").2 = none :=
  ⟨(sandbox_order_and_abort envLockFail "/tmp/x" inpSbFail).1,
   (sandbox_order_and_abort envLockFail "/tmp/x" inpSbFail).2.2.1 rfl,
   (sandbox_order_and_abort envLockFail "/tmp/x" inpSbFail).2.2.2.2 rfl,
   ((sandbox_order_and_abort envOk "/tmp/x" inpSbFail).2.1 rfl).1,
   ((sandbox_order_and_abort envOk "/tmp/x" inpSbFail).2.1 rfl).2⟩

/-- C9: when the graceful shutdown returns an error (e.g. the timeout
elapses with connections still open), the error is only logged: the run
still reaches the final "stopped" entry and the process exits with code 0,
not a failure code. -/
theorem shutdown_timeout_nonfatal (inp : MainInput) (dirA e : String)
    (hdir : inp.dirCheck = Except.ok dirA)
    (hsb : inp.sandbox.fails = false)
    (htr : inp.trigger = RunTrigger.signal)
    (hsd : inp.shutdownErr = some e) :
    MainEvent.logError "failed to shutdown server gracefully" ∈ mainRun inp ∧
    MainEvent.logInfo "stopped" ∈ mainRun inp ∧
    exitCodeOf (mainRun inp) = some 0 := by
  have hnone : (setupSecurity inp.sandbox dirA).2 = none := by
    rw [← Option.not_isSome_iff_eq_none, setupSecurity_isSome_iff, hsb]
    simp
  refine ⟨?_, ?_, ?_⟩ <;>
    simp [mainRun, hdir, hnone, htr, hsd, exitCodeOf_append_sandboxCalls, exitCodeOf]

/-- Witness for C9 at a concrete run whose shutdown exceeds its timeout. -/
theorem shutdown_timeout_nonfatal_witness :
    MainEvent.logError "failed to shutdown server gracefully" ∈ mainRun inpShutdownErr ∧
    MainEvent.logInfo "stopped" ∈ mainRun inpShutdownErr ∧
    exitCodeOf (mainRun inpShutdownErr) = some 0 :=
  shutdown_timeout_nonfatal inpShutdownErr "/tmp/x" "context deadline exceeded"
    rfl rfl rfl rfl
